import Mathlib

/-!
Verification development for the VK transcript reconciliation routine
(`sync_vk` in `crud.py`) of the `aggregator` repository.

The Python source is shallowly embedded: SQLAlchemy models become Lean
structures, the transcript table becomes an explicit `List Message`
threaded through the routine, commit/rollback behaviour is made explicit
(the source commits the deletion separately from the inserts), and the
external collaborators (VK history API, aiohttp media fetch, MinIO
upload) become explicit environments, since `sync_vk` only observes
their outcomes.  Machine arithmetic is irrelevant here: ids and unix
timestamps are modelled as `Int`/`Nat`.
-/

namespace Aggregator

/-- `Chat` model (`crud.py` lines 40-49).  The autoincrement `id`,
`uuid` (VK peer id as a string), and `messager` platform tag are what
`sync_vk` reads; the remaining columns are carried for completeness. -/
structure Chat where
  id : Int
  uuid : String
  ai : Bool := false
  waiting : Bool := false
  tags : List String := []
  name : String := "Не известно"
  messager : String := "telegram"
  deriving Repr, DecidableEq

/-- `Message` model (`crud.py` lines 51-60), one transcript record.
The autoincrement primary key is not modelled; `created_at` is the unix
timestamp in seconds (`datetime.fromtimestamp` is injective and
monotone on it). -/
structure Message where
  chat_id : Int
  message : String
  message_type : String
  ai : Bool
  created_at : Nat
  is_image : Bool
  deriving Repr, DecidableEq

/-- One entry of a VK photo attachment's `sizes` list: a dict with
optional `height` (read via `.get("height", 0)`, so absent is 0) and
optional `url` (read via `.get("url")`). -/
structure SizeEntry where
  height : Nat
  url : Option String
  deriving Repr, DecidableEq

/-- A VK `photo` object.  Each fixed size key is `some v` when the key
is present in the dict (`size in photo`); `sizes` is `some l` when the
`"sizes"` key is present. -/
structure Photo where
  photo_1280 : Option String := none
  photo_807 : Option String := none
  photo_604 : Option String := none
  photo_130 : Option String := none
  photo_75 : Option String := none
  sizes : Option (List SizeEntry) := none
  deriving Repr, DecidableEq

/-- A VK photo object with no keys at all: `att.get("photo", \x7b\x7d)`. -/
def emptyPhoto : Photo := ⟨none, none, none, none, none, none⟩

/-- One attachment: `type` is `att.get("type")` (absent modelled as ""),
`photo` is `att.get("photo", \x7b\x7d)` (absent modelled as `emptyPhoto`). -/
structure Attachment where
  type : String
  photo : Photo
  deriving Repr, DecidableEq

/-- A raw VK history item.  `from_id` is `msg.get("from_id", 0)`,
`text` is `msg.get("text", "")` (absent = ""), `attachments` is
`msg.get("attachments", [])` (absent = `[]`; Python truthiness of the
raw `msg.get("attachments")` coincides with `[] == []` emptiness),
`date` is `msg.get("date", 0)` in unix seconds. -/
structure VkMessage where
  from_id : Int := 0
  text : String := ""
  attachments : List Attachment := []
  date : Nat := 0
  deriving Repr, DecidableEq

/-- Python truthiness of an optional string (`if not VK_TOKEN`,
`if photo_url`): present and non-empty. -/
def strTruthy : Option String → Bool
  | none => false
  | some s => s ≠ ""

/-- `has_text = bool(msg.get("text"))` (`crud.py` line 322). -/
def msgHasText (m : VkMessage) : Bool := m.text ≠ ""

/-- `has_photo = bool(msg.get("attachments") and any(att.get("type") ==
"photo" for att in msg.get("attachments", [])))` (lines 323-325). -/
def msgHasPhoto (m : VkMessage) : Bool :=
  m.attachments.any (fun a => a.type == "photo")

/-- The relevance filter of the sync loop (lines 318-328): an item is
kept iff it has text or a photo attachment. -/
def msgRelevant (m : VkMessage) : Bool := msgHasText m || msgHasPhoto m

/-- The fixed-key loop of lines 385-389: the first of `photo_1280`,
`photo_807`, `photo_604`, `photo_130`, `photo_75` that is present in
the dict wins (the loop breaks on key presence). -/
def fixedKeyUrl (p : Photo) : Option String :=
  p.photo_1280 <|> p.photo_807 <|> p.photo_604 <|> p.photo_130 <|> p.photo_75

/-- `max(sizes, key=lambda s: s.get("height", 0))` on a non-empty list,
seeded with the head: Python's `max` keeps the first maximal element,
replacing the current best only on a strictly greater key. -/
def maxByHeight (s : SizeEntry) : List SizeEntry → SizeEntry
  | [] => s
  | t :: ts => if s.height < t.height then maxByHeight t ts else maxByHeight s ts

/-- The photo URL resolution of lines 385-396: fixed keys first; if the
result is falsy (no key present, or an empty-string value) and the
`sizes` key is present with a non-empty list, take the `url` of the
maximum-height entry (which overwrites the previous value, possibly
with `none`). -/
def resolvePhotoUrl (p : Photo) : Option String :=
  let u := fixedKeyUrl p
  if strTruthy u then u
  else
    match p.sizes with
    | some [] => u
    | some (e :: es) => (maxByHeight e es).url
    | none => u

/-- The `if photo_url:` truthiness gate of line 398: a record is only
created for a present, non-empty resolved URL. -/
def recordUrl? (p : Photo) : Option String :=
  match resolvePhotoUrl p with
  | some s => if s ≠ "" then some s else none
  | none => none

/-- Outcome of `aiohttp` fetching one URL (lines 407-413): either an
exception, or a response with a status code and a body. -/
inductive FetchResult where
  | exn : FetchResult
  | resp (status : Nat) (content : List Nat) : FetchResult

/-- Outcome of `minio_client.put_object` (lines 431-442). -/
inductive UploadResult where
  | raises : UploadResult
  | ok : UploadResult

/-- The media environment `sync_vk` runs against: the HTTP fetcher, the
MinIO availability flag (`MINIO_LOGIN and MINIO_PWD` set and the client
constructor succeeded, lines 276-287), the uploader keyed by object
name and content, and `APP_HOST` for generated URLs. -/
structure MediaEnv where
  fetch : String → FetchResult
  minioConfigured : Bool
  upload : String → List Nat → UploadResult
  appHost : String

/-- `BUCKET_NAME = "psih-photo"` (line 31). -/
def bucketName : String := "psih-photo"

/-- Model of `os.path.splitext(path)[1]`: the extension (with dot) of
the final path component; leading dots of a hidden file do not count. -/
def splitextExt (p : String) : String :=
  let base := (p.splitOn "/").getLastD ""
  let stripped := base.dropWhile (fun c => c = '.')
  if stripped.contains '.' then "." ++ (stripped.splitOn ".").getLastD "" else ""

/-- The body stored for one photo record (lines 398-448): fetch the
resolved URL; on exception, non-200 status or empty body keep the
original URL; otherwise, when MinIO is configured, upload under
`"\x7bpeer_id\x7d-\x7bdate or now\x7d\x7bext\x7d"` and use the
generated URL, falling back to the original URL if the upload raises or
MinIO is unconfigured. -/
def imgUrlFor (env : MediaEnv) (peerId : Int) (msgDate now : Nat)
    (photoUrl : String) : String :=
  match env.fetch photoUrl with
  | .exn => photoUrl
  | .resp status content =>
    if status ≠ 200 then photoUrl
    else if content.isEmpty then photoUrl
    else if env.minioConfigured then
      let ext0 := splitextExt ((photoUrl.splitOn "?").headD "")
      let ext := if ext0 = "" then ".jpg" else ext0
      let fileName :=
        toString peerId ++ "-" ++ toString (if msgDate ≠ 0 then msgDate else now) ++ ext
      match env.upload fileName content with
      | .raises => photoUrl
      | .ok => "http://" ++ env.appHost ++ ":9000/" ++ bucketName ++ "/" ++ fileName
    else photoUrl

/-- Role classification of lines 363-366. -/
def messageTypeFor (groupId : Int) (m : VkMessage) : String :=
  if m.from_id < 0 || m.from_id == groupId then "answer" else "question"

/-- `datetime.fromtimestamp(msg_date) if msg_date else datetime.utcnow()`
(lines 375 and 455), with `now` the current unix time. -/
def createdAtFor (now : Nat) (m : VkMessage) : Nat :=
  if m.date ≠ 0 then m.date else now

/-- The per-attachment body of lines 381-458: only `type == "photo"`
attachments with a truthy resolved URL produce a record; the record is
always created, with `imgUrlFor` as body, the parent's role and
timestamp, `ai=False` and `is_image=True`. -/
def photoRecordFor (env : MediaEnv) (mtype : String) (chatId peerId : Int)
    (msgDate created now : Nat) (att : Attachment) : Option Message :=
  if att.type == "photo" then
    match recordUrl? att.photo with
    | some url =>
      some { chat_id := chatId, message := imgUrlFor env peerId msgDate now url,
             message_type := mtype, ai := false, created_at := created,
             is_image := true }
    | none => none
  else none

/-- The records produced for one filtered VK item by the rebuild loop
body (lines 354-458): one text record when the text is non-empty, then
one media record per photo attachment with a resolvable URL, in
attachment order. -/
def recordsForMessage (env : MediaEnv) (groupId chatId peerId : Int) (now : Nat)
    (m : VkMessage) : List Message :=
  let mtype := messageTypeFor groupId m
  let created := createdAtFor now m
  (if m.text ≠ "" then
    [{ chat_id := chatId, message := m.text, message_type := mtype, ai := false,
       created_at := created, is_image := false }]
   else []) ++
  m.attachments.filterMap (photoRecordFor env mtype chatId peerId m.date created now)

/-- The sort key relation of line 352: ascending by `date`.  Python's
`list.sort` is stable, as is `List.insertionSort`, so the embedding is
exact. -/
def dateLe (a b : VkMessage) : Prop := a.date ≤ b.date

instance : DecidableRel dateLe := fun a b => Nat.decLe a.date b.date

instance : IsTotal VkMessage dateLe := ⟨fun a b => Nat.le_total a.date b.date⟩

instance : IsTrans VkMessage dateLe := ⟨fun _ _ _ h h' => Nat.le_trans h h'⟩

/-- The structured dict returned by `sync_vk`: `success` and `message`
always, and whichever of the count keys the taken path sets
(`vk_count`/`db_count` on the already-synchronized path, `vk_count`/
`db_count_before`/`db_count_after` on the rebuild path). -/
structure SyncResult where
  success : Bool
  message : String
  vk_count : Option Nat := none
  db_count : Option Nat := none
  db_count_before : Option Nat := none
  db_count_after : Option Nat := none
  deriving Repr, DecidableEq

/-- Injected database fault, modelling a `SQLAlchemyError` raised by
the persistence layer during the rebuild: at the deletion (line 347-348,
before its commit takes effect), or during the insert phase / final
commit (lines 354-460, after the deletion was already committed).  The
outer `except` (lines 470-472) catches either and rolls back the
session to the last committed state. -/
inductive DbFault where
  | noFault : DbFault
  | deleteFault : DbFault
  | insertFault : DbFault
  deriving Repr, DecidableEq

/-- Everything `sync_vk` reads from its surroundings: the `chats`
table, `VK_TOKEN` (`os.getenv`, `none` when unset), `VK_GROUP_ID`, the
media environment, the materialized result of the paginated
`messages.getHistory` loop (lines 294-316; `Except.error` stands for
any exception raised while paging, caught at lines 470-472), the
injected persistence fault, and the current unix time. -/
structure SyncCtx where
  chats : List Chat
  vkToken : Option String
  vkGroupId : Int
  media : MediaEnv
  history : Except String (List VkMessage)
  fault : DbFault
  now : Nat

/-- `get_chat` (lines 68-70): `scalar_one_or_none` on `id == chat_id`. -/
def getChat (chats : List Chat) (chatId : Int) : Option Chat :=
  chats.find? (fun c => c.id == chatId)

/-- Accumulator pass of `parseIntPy` over the digit characters. -/
def digitsToNat (acc : Nat) : List Char → Option Nat
  | [] => some acc
  | c :: cs =>
    if c.isDigit then digitsToNat (acc * 10 + (c.toNat - '0'.toNat)) cs
    else none

/-- Model of Python `int(chat.uuid)` (line 290) on an optionally signed
digit string; `none` models the `ValueError` the surrounding `except`
catches. -/
def parseIntPy (s : String) : Option Int :=
  match s.data with
  | [] => none
  | '-' :: cs =>
    if cs.isEmpty then none else (digitsToNat 0 cs).map (fun n => -(n : Int))
  | cs => (digitsToNat 0 cs).map (fun n => (n : Int))

/-- The full record list inserted by the rebuild (lines 350-458): the
filtered items sorted ascending by date, each expanded to its records. -/
def rebuildRecords (ctx : SyncCtx) (chatId peerId : Int)
    (items : List VkMessage) : List Message :=
  ((items.filter msgRelevant).insertionSort dateLe).flatMap
    (recordsForMessage ctx.media ctx.vkGroupId chatId peerId ctx.now)

/-- The observable outcome of one `sync_vk` call: the returned dict,
the committed content of the `messages` table afterwards, and the
numbers of committed row deletions and insertions (for stating
"zero transcript writes"). -/
structure SyncOutcome where
  result : SyncResult
  store : List Message
  writesDeleted : Nat
  writesInserted : Nat
  deriving Repr, DecidableEq

/-- Shallow embedding of `sync_vk` (`crud.py` lines 249-472) acting on
the committed `messages` table `store`.

Phases: chat lookup, platform check, `VK_TOKEN` check, `int(chat.uuid)`
parse, remote history materialization, filter and count comparison;
on mismatch, delete-and-commit then insert-and-commit.  The deletion is
committed separately (line 348), so a persistence fault during the
insert phase (`DbFault.insertFault`) rolls the session back to the
state where the conversation's records are already gone; a fault at the
deletion itself (`DbFault.deleteFault`) rolls back to the untouched
store.  Every failure is caught and converted to a `success := false`
result (the exception text of line 472 is abstracted to a fixed
message per failure). -/
def sync_vk (ctx : SyncCtx) (store : List Message) (chatId : Int) : SyncOutcome :=
  match getChat ctx.chats chatId with
  | none =>
    ⟨{ success := false, message := "Chat not found" }, store, 0, 0⟩
  | some chat =>
    if chat.messager ≠ "vk" then
      ⟨{ success := false, message := "Chat is not a VK chat" }, store, 0, 0⟩
    else if ¬ strTruthy ctx.vkToken then
      ⟨{ success := false, message := "VK_TOKEN not found" }, store, 0, 0⟩
    else
      match parseIntPy chat.uuid with
      | none =>
        ⟨{ success := false,
           message := "Error during synchronization: invalid literal for int()" },
         store, 0, 0⟩
      | some peerId =>
        match ctx.history with
        | .error e =>
          ⟨{ success := false, message := "Error during synchronization: " ++ e },
           store, 0, 0⟩
        | .ok items =>
          if (items.filter msgRelevant).length
              == (store.filter (fun r => r.chat_id == chatId)).length then
            ⟨{ success := true, message := "Messages are already synchronized",
               vk_count := some (items.filter msgRelevant).length,
               db_count := some (store.filter (fun r => r.chat_id == chatId)).length },
             store, 0, 0⟩
          else
            match ctx.fault with
            | .deleteFault =>
              ⟨{ success := false,
                 message := "Error during synchronization: database error" },
               store, 0, 0⟩
            | .insertFault =>
              ⟨{ success := false,
                 message := "Error during synchronization: database error" },
               store.filter (fun r => ¬ r.chat_id == chatId),
               (store.filter (fun r => r.chat_id == chatId)).length, 0⟩
            | .noFault =>
              ⟨{ success := true, message := "Messages synchronized successfully",
                 vk_count := some (items.filter msgRelevant).length,
                 db_count_before :=
                   some (store.filter (fun r => r.chat_id == chatId)).length,
                 db_count_after := some (items.filter msgRelevant).length },
               store.filter (fun r => ¬ r.chat_id == chatId)
                 ++ rebuildRecords ctx chatId peerId items,
               (store.filter (fun r => r.chat_id == chatId)).length,
               (rebuildRecords ctx chatId peerId items).length⟩

/-! ### Basic facts about the embedded definitions -/

/-- Every record the rebuild loop body produces for an item carries the
conversation id, `ai = False`, the item's classified role and the
item's timestamp. -/
lemma recordsForMessage_fields {env : MediaEnv} {gid cid pid : Int} {now : Nat}
    {m : VkMessage} {r : Message}
    (hr : r ∈ recordsForMessage env gid cid pid now m) :
    r.chat_id = cid ∧ r.ai = false ∧ r.message_type = messageTypeFor gid m ∧
      r.created_at = createdAtFor now m := by
  unfold recordsForMessage at hr
  rcases List.mem_append.1 hr with h | h
  · split at h
    · rcases List.mem_singleton.1 h with rfl
      exact ⟨rfl, rfl, rfl, rfl⟩
    · cases h
  · rcases List.mem_filterMap.1 h with ⟨att, _, hf⟩
    unfold photoRecordFor at hf
    split at hf
    · split at hf
      · rcases Option.some.inj hf with rfl
        exact ⟨rfl, rfl, rfl, rfl⟩
      · cases hf
    · cases hf

/-- A filter keeps nothing from a list prefiltered on the negation. -/
lemma filter_neg_filter_eq_nil {α} (p : α → Bool) :
    ∀ l : List α, (l.filter (fun a => ¬ p a)).filter p = []
  | [] => rfl
  | a :: t => by
    by_cases h : p a = true
    · simp [List.filter_cons, h, filter_neg_filter_eq_nil p t]
    · simp [List.filter_cons, h, filter_neg_filter_eq_nil p t]

/-- The records inserted by the rebuild all belong to the conversation,
so filtering the rebuilt store by the conversation id returns exactly
the inserted records. -/
lemma filter_rebuildRecords {ctx : SyncCtx} {chatId peerId : Int}
    {items : List VkMessage} :
    (rebuildRecords ctx chatId peerId items).filter
        (fun r => r.chat_id == chatId) = rebuildRecords ctx chatId peerId items := by
  apply List.filter_eq_self.2
  intro r hr
  rcases List.mem_flatMap.1 hr with ⟨m, _, hm⟩
  simpa using (recordsForMessage_fields hm).1

/-- Length of a `flatMap` as the sum of the block lengths. -/
lemma length_flatMap_eq_sum {α β} (f : α → List β) :
    ∀ l : List α, (l.flatMap f).length = (l.map (fun a => (f a).length)).sum
  | [] => rfl
  | a :: t => by
    simp [List.flatMap_cons, length_flatMap_eq_sum f t]

/-- A list whose `tval` is constant is pairwise `tval`-monotone. -/
lemma pairwise_tval_const {β} {tval : β → Nat} {c : Nat} :
    ∀ {l : List β}, (∀ b ∈ l, tval b = c) →
      l.Pairwise (fun x y => tval x ≤ tval y)
  | [], _ => List.Pairwise.nil
  | b :: t, h => by
    constructor
    · intro y hy
      rw [h b (by simp), h y (by simp [hy])]
    · exact pairwise_tval_const (fun x hx => h x (by simp [hx]))

/-- Expanding each element of a `key`-sorted list into a block of
records that all carry the element's `key` as their `tval` yields a
`tval`-monotone list. -/
lemma pairwise_le_flatMap {α β} (key : α → Nat) (tval : β → Nat) (f : α → List β) :
    ∀ l : List α, l.Pairwise (fun a b => key a ≤ key b) →
      (∀ a ∈ l, ∀ b ∈ f a, tval b = key a) →
      (l.flatMap f).Pairwise (fun x y => tval x ≤ tval y)
  | [], _, _ => by simp
  | a :: t, hp, hv => by
    rw [List.flatMap_cons]
    refine List.pairwise_append.2 ⟨?_, ?_, ?_⟩
    · exact pairwise_tval_const (fun b hb => hv a (by simp) b hb)
    · exact pairwise_le_flatMap key tval f t (List.pairwise_cons.1 hp).2
        (fun a' ha' b hb => hv a' (by simp [ha']) b hb)
    · intro x hx y hy
      rcases List.mem_flatMap.1 hy with ⟨a', ha', hy'⟩
      rw [hv a (by simp) x hx, hv a' (by simp [ha']) y hy']
      exact (List.pairwise_cons.1 hp).1 a' ha'

/-- Branch characterization: the already-synchronized no-op path
(lines 337-344). -/
lemma sync_vk_noop_eq {ctx : SyncCtx} {store : List Message} {chatId : Int}
    {chat : Chat} {peerId : Int} {items : List VkMessage}
    (hchat : getChat ctx.chats chatId = some chat)
    (hvk : chat.messager = "vk")
    (htok : strTruthy ctx.vkToken = true)
    (hpid : parseIntPy chat.uuid = some peerId)
    (hist : ctx.history = Except.ok items)
    (heq : (items.filter msgRelevant).length
      = (store.filter (fun r => r.chat_id == chatId)).length) :
    sync_vk ctx store chatId =
      ⟨{ success := true, message := "Messages are already synchronized",
         vk_count := some (items.filter msgRelevant).length,
         db_count := some (store.filter (fun r => r.chat_id == chatId)).length },
       store, 0, 0⟩ := by
  unfold sync_vk
  rw [hchat]
  simp [hvk, htok, hpid, hist, heq]

/-- Branch characterization: the successful rebuild path (mismatching
counts, no injected fault; lines 346-468). -/
lemma sync_vk_rebuild_eq {ctx : SyncCtx} {store : List Message} {chatId : Int}
    {chat : Chat} {peerId : Int} {items : List VkMessage}
    (hchat : getChat ctx.chats chatId = some chat)
    (hvk : chat.messager = "vk")
    (htok : strTruthy ctx.vkToken = true)
    (hpid : parseIntPy chat.uuid = some peerId)
    (hist : ctx.history = Except.ok items)
    (hne : (items.filter msgRelevant).length
      ≠ (store.filter (fun r => r.chat_id == chatId)).length)
    (hf : ctx.fault = DbFault.noFault) :
    sync_vk ctx store chatId =
      ⟨{ success := true, message := "Messages synchronized successfully",
         vk_count := some (items.filter msgRelevant).length,
         db_count_before := some (store.filter (fun r => r.chat_id == chatId)).length,
         db_count_after := some (items.filter msgRelevant).length },
       store.filter (fun r => ¬ r.chat_id == chatId)
         ++ rebuildRecords ctx chatId peerId items,
       (store.filter (fun r => r.chat_id == chatId)).length,
       (rebuildRecords ctx chatId peerId items).length⟩ := by
  unfold sync_vk
  rw [hchat]
  simp [hvk, htok, hpid, hist, hf, hne]

/-- Branch characterization: a persistence fault after the deletion was
committed (the inserts are rolled back, the deletion is not). -/
lemma sync_vk_insertFault_eq {ctx : SyncCtx} {store : List Message} {chatId : Int}
    {chat : Chat} {peerId : Int} {items : List VkMessage}
    (hchat : getChat ctx.chats chatId = some chat)
    (hvk : chat.messager = "vk")
    (htok : strTruthy ctx.vkToken = true)
    (hpid : parseIntPy chat.uuid = some peerId)
    (hist : ctx.history = Except.ok items)
    (hne : (items.filter msgRelevant).length
      ≠ (store.filter (fun r => r.chat_id == chatId)).length)
    (hf : ctx.fault = DbFault.insertFault) :
    sync_vk ctx store chatId =
      ⟨{ success := false,
         message := "Error during synchronization: database error" },
       store.filter (fun r => ¬ r.chat_id == chatId),
       (store.filter (fun r => r.chat_id == chatId)).length, 0⟩ := by
  unfold sync_vk
  rw [hchat]
  simp [hvk, htok, hpid, hist, hf, hne]

/-- Branch characterization: a persistence fault at the deletion itself
(everything rolled back, store untouched). -/
lemma sync_vk_deleteFault_eq {ctx : SyncCtx} {store : List Message} {chatId : Int}
    {chat : Chat} {peerId : Int} {items : List VkMessage}
    (hchat : getChat ctx.chats chatId = some chat)
    (hvk : chat.messager = "vk")
    (htok : strTruthy ctx.vkToken = true)
    (hpid : parseIntPy chat.uuid = some peerId)
    (hist : ctx.history = Except.ok items)
    (hne : (items.filter msgRelevant).length
      ≠ (store.filter (fun r => r.chat_id == chatId)).length)
    (hf : ctx.fault = DbFault.deleteFault) :
    sync_vk ctx store chatId =
      ⟨{ success := false,
         message := "Error during synchronization: database error" },
       store, 0, 0⟩ := by
  unfold sync_vk
  rw [hchat]
  simp [hvk, htok, hpid, hist, hf, hne]

/-- `maxByHeight` returns the seed or a list element. -/
lemma maxByHeight_mem (s : SizeEntry) :
    ∀ l : List SizeEntry, maxByHeight s l = s ∨ maxByHeight s l ∈ l
  | [] => Or.inl rfl
  | t :: ts => by
    unfold maxByHeight
    by_cases h : s.height < t.height
    · rw [if_pos h]
      rcases maxByHeight_mem t ts with h' | h'
      · exact Or.inr (by simp [h'])
      · exact Or.inr (by simp [h'])
    · rw [if_neg h]
      rcases maxByHeight_mem s ts with h' | h'
      · exact Or.inl h'
      · exact Or.inr (by simp [h'])

/-- `maxByHeight` dominates the seed and every list element. -/
lemma maxByHeight_le (s : SizeEntry) :
    ∀ l : List SizeEntry, s.height ≤ (maxByHeight s l).height
      ∧ ∀ t ∈ l, t.height ≤ (maxByHeight s l).height
  | [] => ⟨Nat.le_refl _, by simp⟩
  | t :: ts => by
    unfold maxByHeight
    by_cases h : s.height < t.height
    · rw [if_pos h]
      rcases maxByHeight_le t ts with ⟨h1, h2⟩
      exact ⟨Nat.le_trans (Nat.le_of_lt h) h1, by
        intro x hx
        rcases List.mem_cons.1 hx with rfl | hx
        · exact h1
        · exact h2 x hx⟩
    · rw [if_neg h]
      rcases maxByHeight_le s ts with ⟨h1, h2⟩
      exact ⟨h1, by
        intro x hx
        rcases List.mem_cons.1 hx with rfl | hx
        · exact Nat.le_trans (Nat.le_of_not_lt h) h1
        · exact h2 x hx⟩

/-- All the failure branches of the media pipeline keep the original
resolved URL as the record body. -/
lemma imgUrlFor_fallback {env : MediaEnv} {peerId : Int} {msgDate now : Nat}
    {url : String}
    (hfail : env.fetch url = FetchResult.exn
      ∨ (∃ s c, env.fetch url = FetchResult.resp s c ∧ (s ≠ 200 ∨ c = []))
      ∨ env.minioConfigured = false
      ∨ (∀ name content, env.upload name content = UploadResult.raises)) :
    imgUrlFor env peerId msgDate now url = url := by
  unfold imgUrlFor
  rcases hfail with h | ⟨s, c, h, hsc⟩ | h | h
  · rw [h]
  · rw [h]
    rcases hsc with hs | hc
    · simp [hs]
    · simp [hc]
  · cases hfe : env.fetch url with
    | exn => rfl
    | resp s c =>
      by_cases hs : s ≠ 200
      · simp [hs]
      · by_cases hc : c.isEmpty
        · simp [hs, hc]
        · simp [hs, hc, h]
  · cases hfe : env.fetch url with
    | exn => rfl
    | resp s c =>
      by_cases hs : s ≠ 200
      · simp [hs]
      · by_cases hc : c.isEmpty
        · simp [hs, hc]
        · simp [hs, hc, h]

/-! ### The claims -/

/-- Claim C5: `sync_vk` treats a remote history item as relevant
(counted and persisted) iff it has non-empty text or at least one
attachment of type photo; an item with empty text and no photo
attachment is excluded from the count and the rebuild (both of which
are `filter msgRelevant`). -/
theorem sync_vk_filter_correctness (m : VkMessage) :
    msgRelevant m = true ↔ (m.text ≠ "" ∨ ∃ a ∈ m.attachments, a.type = "photo") := by
  simp [msgRelevant, msgHasText, msgHasPhoto, List.any_eq_true]

/-- Claim C6: every record the rebuild creates for a remote item is
tagged `answer` iff the item's sender id is negative or equals the
configured VK group id, and `question` otherwise. -/
theorem sync_vk_role_classification (env : MediaEnv) (gid cid pid : Int)
    (now : Nat) (m : VkMessage) (r : Message)
    (hr : r ∈ recordsForMessage env gid cid pid now m) :
    (r.message_type = "answer" ↔ (m.from_id < 0 ∨ m.from_id = gid))
    ∧ (r.message_type = "question" ↔ ¬ (m.from_id < 0 ∨ m.from_id = gid)) := by
  have hmt := (recordsForMessage_fields hr).2.2.1
  rw [hmt]
  unfold messageTypeFor
  by_cases h : m.from_id < 0 ∨ m.from_id = gid
  · have hb : (m.from_id < 0 || m.from_id == gid) = true := by
      rcases h with h' | h' <;> simp [h']
    rw [hb]
    simp [h]
  · have hb : (m.from_id < 0 || m.from_id == gid) = false := by
      push_neg at h
      simp [h.1, h.2]
    rw [hb]
    simp [h]

/-- A media environment where every fetch raises and MinIO is
unconfigured, for concrete scenarios. -/
def failEnv : MediaEnv :=
  ⟨fun _ => FetchResult.exn, false, fun _ _ => UploadResult.raises, "localhost"⟩

/-- A photo attachment whose `photo_604` key resolves to `"u"`. -/
def attPhotoU : Attachment := ⟨"photo", { photo_604 := some "u" }⟩

/-- Witness for the role-classification theorem at a concrete group
message. -/
theorem sync_vk_role_classification_witness :
    (("answer" : String) = "answer" ↔ ((-100 : Int) < 0 ∨ (-100 : Int) = 5))
    ∧ (("answer" : String) = "question" ↔ ¬ ((-100 : Int) < 0 ∨ (-100 : Int) = 5)) := by
  have h := sync_vk_role_classification failEnv 5 1 7 1000
    { from_id := -100, text := "hi", date := 10 }
    { chat_id := 1, message := "hi", message_type := "answer", ai := false,
      created_at := 10, is_image := false } (by decide)
  exact h

/-- Claim C7: photo URL resolution checks the fixed ordered keys
first (first present wins, hence `photo_604` beats the `sizes`
fallback), falls back to the maximum-height entry of `sizes` only when
no fixed key is present, and an attachment with no resolvable URL
produces no record. -/
theorem sync_vk_size_resolution (p : Photo) :
    (∀ v, fixedKeyUrl p = some v → v ≠ "" → recordUrl? p = some v)
    ∧ (fixedKeyUrl p = none →
        ∀ e es, p.sizes = some (e :: es) →
          resolvePhotoUrl p = (maxByHeight e es).url
          ∧ maxByHeight e es ∈ e :: es
          ∧ (∀ s ∈ e :: es, s.height ≤ (maxByHeight e es).height))
    ∧ (fixedKeyUrl p = none → (p.sizes = none ∨ p.sizes = some []) →
        resolvePhotoUrl p = none)
    ∧ (∀ env mtype cid pid msgDate created now att, Attachment.photo att = p →
        recordUrl? p = none →
        photoRecordFor env mtype cid pid msgDate created now att = none) := by
  refine ⟨?_, ?_, ?_, ?_⟩
  · intro v hv hne
    unfold recordUrl? resolvePhotoUrl
    rw [hv]
    have ht : strTruthy (some v) = true := by simp [strTruthy, hne]
    rw [if_pos ht]
    simp [hne]
  · intro hnone e es hs
    unfold resolvePhotoUrl
    rw [hnone, hs]
    refine ⟨by simp [strTruthy], ?_, ?_⟩
    · rcases maxByHeight_mem e es with h | h
      · simp [h]
      · simp [h]
    · intro s hs'
      rcases List.mem_cons.1 hs' with h' | h'
      · rw [h']
        exact (maxByHeight_le e es).1
      · exact (maxByHeight_le e es).2 s h'
  · intro hnone hs
    unfold resolvePhotoUrl
    rw [hnone]
    rcases hs with h | h <;> simp [h, strTruthy]
  · intro env mtype cid pid msgDate created now att hp hnone
    unfold photoRecordFor
    rw [hp, hnone]
    simp

/-- Witness for the size-resolution theorem: `photo_604` wins over a
present `sizes` list, and a pure `sizes` list resolves to the
maximum-height entry's URL. -/
theorem sync_vk_size_resolution_witness :
    recordUrl? { photo_604 := some "u604", sizes := some [⟨100, some "A"⟩] } = some "u604"
    ∧ resolvePhotoUrl { sizes := some [⟨100, some "A"⟩, ⟨400, some "B"⟩] } = some "B" := by
  constructor
  · exact (sync_vk_size_resolution
      { photo_604 := some "u604", sizes := some [⟨100, some "A"⟩] }).1
      "u604" rfl (by decide)
  · have h := ((sync_vk_size_resolution
      { sizes := some [⟨100, some "A"⟩, ⟨400, some "B"⟩] }).2.1
      rfl ⟨100, some "A"⟩ [⟨400, some "B"⟩] rfl).1
    rw [h]
    rfl

/-- Claim C8: for a photo attachment with a resolved URL, if the media
fetch fails (exception, non-200 status, or empty body), or MinIO is
unconfigured, or every upload raises, the media record is still
created and its body equals the originally resolved remote URL. -/
theorem sync_vk_media_fallback (env : MediaEnv) (gid cid pid : Int) (now : Nat)
    (m : VkMessage) (att : Attachment) (url : String)
    (hatt : att ∈ m.attachments)
    (htype : att.type = "photo")
    (hurl : recordUrl? att.photo = some url)
    (hfail : env.fetch url = FetchResult.exn
      ∨ (∃ s c, env.fetch url = FetchResult.resp s c ∧ (s ≠ 200 ∨ c = []))
      ∨ env.minioConfigured = false
      ∨ (∀ name content, env.upload name content = UploadResult.raises)) :
    { chat_id := cid, message := url, message_type := messageTypeFor gid m,
      ai := false, created_at := createdAtFor now m, is_image := true }
      ∈ recordsForMessage env gid cid pid now m := by
  unfold recordsForMessage
  apply List.mem_append_right
  apply List.mem_filterMap.2
  refine ⟨att, hatt, ?_⟩
  unfold photoRecordFor
  rw [htype, hurl]
  simp [imgUrlFor_fallback hfail]

/-- Witness for the media-fallback theorem at a concrete attachment
under the all-failing environment. -/
theorem sync_vk_media_fallback_witness :
    ({ chat_id := 1, message := "u", message_type := "question", ai := false,
       created_at := 10, is_image := true } : Message)
      ∈ recordsForMessage failEnv 5 1 7 1000
          { from_id := 555, attachments := [attPhotoU], date := 10 } := by
  have h := sync_vk_media_fallback failEnv 5 1 7 1000
    { from_id := 555, attachments := [attPhotoU], date := 10 }
    attPhotoU "u" (by decide) rfl (by decide) (Or.inl rfl)
  simpa using h

/-- The generic exception handler's message prefix keeps the reported
message non-empty whatever the exception text. -/
lemma err_message_ne_empty (e : String) :
    ("Error during synchronization: " ++ e) ≠ "" := by
  intro h
  have h2 := congrArg String.length h
  rw [String.length_append] at h2
  have h3 : ("Error during synchronization: ").length = 30 := rfl
  rw [h3] at h2
  simp at h2

/-- Whenever `sync_vk` reports failure, the report carries a non-empty
message. -/
lemma sync_vk_failure_message {ctx : SyncCtx} {store : List Message} {chatId : Int} :
    (sync_vk ctx store chatId).result.success = false →
    (sync_vk ctx store chatId).result.message ≠ "" := by
  unfold sync_vk
  repeat' split
  all_goals intro h
  all_goals first
    | (intro h2; exact err_message_ne_empty _ h2)
    | simp_all

/-- Claim C9: `sync_vk` converts every failure into a structured
`success := false` result with a non-empty message, and the NotFound,
WrongPlatform and missing-token failures leave the transcript store
untouched (as does a remote fetch failure). -/
theorem sync_vk_structured_failure (ctx : SyncCtx) (store : List Message) (chatId : Int) :
    ((sync_vk ctx store chatId).result.success = false →
      (sync_vk ctx store chatId).result.message ≠ "")
    ∧ (getChat ctx.chats chatId = none →
      sync_vk ctx store chatId
        = ⟨{ success := false, message := "Chat not found" }, store, 0, 0⟩)
    ∧ (∀ chat, getChat ctx.chats chatId = some chat → chat.messager ≠ "vk" →
      sync_vk ctx store chatId
        = ⟨{ success := false, message := "Chat is not a VK chat" }, store, 0, 0⟩)
    ∧ (∀ chat, getChat ctx.chats chatId = some chat → chat.messager = "vk" →
      strTruthy ctx.vkToken = false →
      sync_vk ctx store chatId
        = ⟨{ success := false, message := "VK_TOKEN not found" }, store, 0, 0⟩)
    ∧ (∀ chat e, getChat ctx.chats chatId = some chat → chat.messager = "vk" →
      strTruthy ctx.vkToken = true → ctx.history = Except.error e →
      (sync_vk ctx store chatId).result.success = false
      ∧ (sync_vk ctx store chatId).store = store) := by
  refine ⟨sync_vk_failure_message, ?_, ?_, ?_, ?_⟩
  · intro h
    unfold sync_vk
    rw [h]
  · intro chat hchat hne
    unfold sync_vk
    rw [hchat]
    simp [hne]
  · intro chat hchat hvk htok
    unfold sync_vk
    rw [hchat]
    simp [hvk, htok]
  · intro chat e hchat hvk htok hh
    unfold sync_vk
    rw [hchat]
    cases hp : parseIntPy chat.uuid with
    | none => simp [hvk, htok, hp]
    | some peerId => simp [hvk, htok, hp, hh]

/-- Scenario: no such chat. -/
def ctx9 : SyncCtx := ⟨[], none, 0, failEnv, Except.error "timeout", DbFault.noFault, 0⟩

/-- Scenario: chat 1 is a telegram chat. -/
def ctx9b : SyncCtx :=
  ⟨[{ id := 1, uuid := "x" }], none, 0, failEnv, Except.error "timeout", DbFault.noFault, 0⟩

/-- Scenario: VK chat but `VK_TOKEN` unset. -/
def ctx9c : SyncCtx :=
  ⟨[{ id := 1, uuid := "7", messager := "vk" }], none, 0, failEnv,
   Except.error "timeout", DbFault.noFault, 0⟩

/-- Scenario: VK chat with a token, but the history fetch raises. -/
def ctx9d : SyncCtx :=
  ⟨[{ id := 1, uuid := "7", messager := "vk" }], some "tok", 0, failEnv,
   Except.error "boom", DbFault.noFault, 0⟩

/-- Witness for the structured-failure theorem on the four concrete
failure scenarios. -/
theorem sync_vk_structured_failure_witness :
    sync_vk ctx9 [] 1 = ⟨{ success := false, message := "Chat not found" }, [], 0, 0⟩
    ∧ sync_vk ctx9b [] 1 = ⟨{ success := false, message := "Chat is not a VK chat" }, [], 0, 0⟩
    ∧ sync_vk ctx9c [] 1 = ⟨{ success := false, message := "VK_TOKEN not found" }, [], 0, 0⟩
    ∧ (sync_vk ctx9d [] 1).result.success = false
    ∧ (sync_vk ctx9d [] 1).store = [] :=
  ⟨(sync_vk_structured_failure ctx9 [] 1).2.1 rfl,
   (sync_vk_structured_failure ctx9b [] 1).2.2.1
     { id := 1, uuid := "x" } rfl (by decide),
   (sync_vk_structured_failure ctx9c [] 1).2.2.2.1
     { id := 1, uuid := "7", messager := "vk" } rfl rfl rfl,
   ((sync_vk_structured_failure ctx9d [] 1).2.2.2.2
     { id := 1, uuid := "7", messager := "vk" } "boom" rfl rfl rfl rfl).1,
   ((sync_vk_structured_failure ctx9d [] 1).2.2.2.2
     { id := 1, uuid := "7", messager := "vk" } "boom" rfl rfl rfl rfl).2⟩

/-- Claim C10: every transcript record inserted by the rebuild has its
AI-authored flag set to `False` — any record of the post-call store
either was already in the pre-call store or carries `ai = false`. -/
theorem sync_vk_ai_flag (ctx : SyncCtx) (store : List Message) (chatId : Int)
    (r : Message) (hr : r ∈ (sync_vk ctx store chatId).store) :
    r ∈ store ∨ r.ai = false := by
  unfold sync_vk at hr
  repeat' split at hr
  all_goals first
    | exact Or.inl hr
    | exact Or.inl (List.mem_of_mem_filter hr)
    | (simp only [List.mem_append] at hr
       rcases hr with hr | hr
       · exact Or.inl (List.mem_of_mem_filter hr)
       · unfold rebuildRecords at hr
         rcases List.mem_flatMap.1 hr with ⟨mm, hmm1, hmm⟩
         exact Or.inr (recordsForMessage_fields hmm).2.1)

/-- Scenario: a VK chat whose rebuild inserts one text record. -/
def ctx10 : SyncCtx :=
  ⟨[{ id := 1, uuid := "7", messager := "vk" }], some "t", -100, failEnv,
   Except.ok [{ from_id := 555, text := "hi", date := 10 }], DbFault.noFault, 1000⟩

/-- Witness for the AI-flag theorem at the record the rebuild of
`ctx10` inserts. -/
theorem sync_vk_ai_flag_witness :
    (⟨1, "hi", "question", false, 10, false⟩ : Message) ∈ ([] : List Message)
    ∨ (⟨1, "hi", "question", false, 10, false⟩ : Message).ai = false :=
  sync_vk_ai_flag ctx10 [] 1 _ (by decide)

/-- Summing a map that is constantly `1` counts the list. -/
lemma sum_map_one {α} (g : α → Nat) :
    ∀ l : List α, (∀ a ∈ l, g a = 1) → (l.map g).sum = l.length
  | [], _ => rfl
  | a :: t, h => by
    have ht := sum_map_one g t (fun x hx => h x (by simp [hx]))
    simp [ht, h a (by simp), Nat.add_comm]

/-- Scenario: one stale local record, one remote text item, and a
persistence fault in the insert phase of the rebuild. -/
def ctxC1 : SyncCtx :=
  ⟨[{ id := 1, uuid := "7", messager := "vk" }], some "t", -100, failEnv,
   Except.ok [{ from_id := 555, text := "hi", date := 10 },
              { from_id := -100, text := "ok", date := 20 }],
   DbFault.insertFault, 1000⟩

/-- The stale record of the `ctxC1` scenario. -/
def oldRecordC1 : Message := ⟨1, "stale", "question", false, 5, false⟩

/-- Claim C1 counterexample: the rebuild is not one atomic
transaction.  The deletion is committed on its own (line 348), so a
persistence failure during the inserts leaves the conversation's
transcript empty — not the pre-rebuild record set. -/
theorem sync_vk_atomicity_counterexample :
    (sync_vk ctxC1 [oldRecordC1] 1).result.success = false
    ∧ (sync_vk ctxC1 [oldRecordC1] 1).store.filter (fun r => r.chat_id == 1)
        ≠ [oldRecordC1].filter (fun r => r.chat_id == 1) := by
  decide

/-- Claim C1 (amended): a persistence failure during the rebuild rolls
back only to the last commit.  A failure at the delete statement
leaves the store unchanged; a failure after the deletion commit leaves
the conversation's transcript deleted and not recreated (records of
other conversations survive).  Either way the call reports failure. -/
theorem sync_vk_atomicity_amended (ctx : SyncCtx) (store : List Message)
    (chatId : Int) (chat : Chat) (peerId : Int) (items : List VkMessage)
    (hchat : getChat ctx.chats chatId = some chat)
    (hvk : chat.messager = "vk")
    (htok : strTruthy ctx.vkToken = true)
    (hpid : parseIntPy chat.uuid = some peerId)
    (hist : ctx.history = Except.ok items)
    (hne : (items.filter msgRelevant).length
      ≠ (store.filter (fun r => r.chat_id == chatId)).length) :
    (ctx.fault = DbFault.insertFault →
      (sync_vk ctx store chatId).result.success = false
      ∧ (sync_vk ctx store chatId).store
          = store.filter (fun r => ¬ r.chat_id == chatId))
    ∧ (ctx.fault = DbFault.deleteFault →
      (sync_vk ctx store chatId).result.success = false
      ∧ (sync_vk ctx store chatId).store = store) := by
  constructor
  · intro hf
    rw [sync_vk_insertFault_eq hchat hvk htok hpid hist hne hf]
    exact ⟨rfl, rfl⟩
  · intro hf
    rw [sync_vk_deleteFault_eq hchat hvk htok hpid hist hne hf]
    exact ⟨rfl, rfl⟩

/-- Witness for the amended atomicity theorem on the concrete
insert-fault scenario. -/
theorem sync_vk_atomicity_amended_witness :
    (sync_vk ctxC1 [oldRecordC1] 1).result.success = false
    ∧ (sync_vk ctxC1 [oldRecordC1] 1).store
        = [oldRecordC1].filter (fun r => ¬ r.chat_id == 1) :=
  (sync_vk_atomicity_amended ctxC1 [oldRecordC1] 1
    { id := 1, uuid := "7", messager := "vk" } 7
    [{ from_id := 555, text := "hi", date := 10 },
     { from_id := -100, text := "ok", date := 20 }]
    (by decide) rfl rfl (by decide) rfl (by decide)).1 rfl

/-- Scenario: one remote item carrying both text and a photo, an empty
local store, no fault. -/
def ctxC2 : SyncCtx :=
  ⟨[{ id := 1, uuid := "7", messager := "vk" }], some "t", -100, failEnv,
   Except.ok [{ from_id := 555, text := "hi", attachments := [attPhotoU], date := 10 }],
   DbFault.noFault, 1000⟩

/-- Claim C2 counterexample: after a successful rebuild the stored
record count can exceed the filtered remote count — an item with both
text and a photo yields two records, so one remote item leaves two
rows while `vk_count = 1`. -/
theorem sync_vk_count_counterexample :
    (sync_vk ctxC2 [] 1).result.success = true
    ∧ (sync_vk ctxC2 [] 1).result.vk_count = some 1
    ∧ ((sync_vk ctxC2 [] 1).store.filter (fun r => r.chat_id == 1)).length = 2 := by
  decide

/-- Claim C2 (amended): after a successful mismatch-triggered rebuild,
the stored record count equals the total number of records generated
from the filtered remote items — one per item with non-empty text plus
one per photo attachment with a resolvable URL — which equals the
filtered remote count only when every item contributes exactly one
record. -/
theorem sync_vk_count_amended (ctx : SyncCtx) (store : List Message)
    (chatId : Int) (chat : Chat) (peerId : Int) (items : List VkMessage)
    (hchat : getChat ctx.chats chatId = some chat)
    (hvk : chat.messager = "vk")
    (htok : strTruthy ctx.vkToken = true)
    (hpid : parseIntPy chat.uuid = some peerId)
    (hist : ctx.history = Except.ok items)
    (hne : (items.filter msgRelevant).length
      ≠ (store.filter (fun r => r.chat_id == chatId)).length)
    (hf : ctx.fault = DbFault.noFault) :
    ((sync_vk ctx store chatId).store.filter (fun r => r.chat_id == chatId)).length
      = ((items.filter msgRelevant).map
          (fun m => (recordsForMessage ctx.media ctx.vkGroupId chatId peerId
            ctx.now m).length)).sum := by
  rw [sync_vk_rebuild_eq hchat hvk htok hpid hist hne hf]
  simp only [List.filter_append, filter_neg_filter_eq_nil, filter_rebuildRecords,
    List.nil_append]
  unfold rebuildRecords
  rw [length_flatMap_eq_sum]
  exact List.Perm.sum_eq (List.Perm.map _ (List.perm_insertionSort dateLe _))

/-- Witness for the amended count theorem on the text-plus-photo
scenario (both sides evaluate to 2). -/
theorem sync_vk_count_amended_witness :
    ((sync_vk ctxC2 [] 1).store.filter (fun r => r.chat_id == 1)).length
      = (([{ from_id := 555, text := "hi", attachments := [attPhotoU],
             date := 10 }].filter msgRelevant).map
          (fun m => (recordsForMessage ctxC2.media ctxC2.vkGroupId 1 7
            ctxC2.now m).length)).sum :=
  sync_vk_count_amended ctxC2 [] 1
    { id := 1, uuid := "7", messager := "vk" } 7
    [{ from_id := 555, text := "hi", attachments := [attPhotoU], date := 10 }]
    (by decide) rfl rfl (by decide) rfl (by decide) rfl

/-- Scenario for the idempotence counterexample: identical to `ctxC2`
(one text-plus-photo remote item, empty store, no fault). -/
def ctxC3 : SyncCtx :=
  ⟨[{ id := 1, uuid := "7", messager := "vk" }], some "t", -100, failEnv,
   Except.ok [{ from_id := 555, text := "hi", attachments := [attPhotoU], date := 10 }],
   DbFault.noFault, 1000⟩

/-- Claim C3 counterexample: the second run after a successful rebuild
is not always a no-op.  The first run stores two records for one
filtered remote item, so the second run sees `2 ≠ 1`, rebuilds again
(four committed writes) and does not report a `db_count` field. -/
theorem sync_vk_idempotence_counterexample :
    (sync_vk ctxC3 [] 1).result.success = true
    ∧ (sync_vk ctxC3 (sync_vk ctxC3 [] 1).store 1).writesDeleted
        + (sync_vk ctxC3 (sync_vk ctxC3 [] 1).store 1).writesInserted = 4
    ∧ (sync_vk ctxC3 (sync_vk ctxC3 [] 1).store 1).result.db_count = none := by
  decide

/-- Claim C3 (amended): when the filtered remote count equals the
local count, `sync_vk` is a no-op reporting equal counts with zero
writes; consequently a second run right after a successful run mutates
nothing provided every filtered remote item yields exactly one record
(otherwise the second run rebuilds again). -/
theorem sync_vk_idempotence_amended (ctx : SyncCtx) (store : List Message)
    (chatId : Int) (chat : Chat) (peerId : Int) (items : List VkMessage)
    (hchat : getChat ctx.chats chatId = some chat)
    (hvk : chat.messager = "vk")
    (htok : strTruthy ctx.vkToken = true)
    (hpid : parseIntPy chat.uuid = some peerId)
    (hist : ctx.history = Except.ok items) :
    ((items.filter msgRelevant).length
        = (store.filter (fun r => r.chat_id == chatId)).length →
      sync_vk ctx store chatId
        = ⟨{ success := true, message := "Messages are already synchronized",
             vk_count := some (items.filter msgRelevant).length,
             db_count := some (store.filter (fun r => r.chat_id == chatId)).length },
           store, 0, 0⟩)
    ∧ ((sync_vk ctx store chatId).result.success = true →
      (∀ m ∈ items.filter msgRelevant,
        (recordsForMessage ctx.media ctx.vkGroupId chatId peerId ctx.now m).length = 1) →
      (sync_vk ctx (sync_vk ctx store chatId).store chatId).store
          = (sync_vk ctx store chatId).store
      ∧ (sync_vk ctx (sync_vk ctx store chatId).store chatId).writesDeleted = 0
      ∧ (sync_vk ctx (sync_vk ctx store chatId).store chatId).writesInserted = 0
      ∧ (sync_vk ctx (sync_vk ctx store chatId).store chatId).result.vk_count
          = some (items.filter msgRelevant).length
      ∧ (sync_vk ctx (sync_vk ctx store chatId).store chatId).result.db_count
          = some (items.filter msgRelevant).length) := by
  constructor
  · intro heq
    exact sync_vk_noop_eq hchat hvk htok hpid hist heq
  · intro hsucc hone
    by_cases heq : (items.filter msgRelevant).length
        = (store.filter (fun r => r.chat_id == chatId)).length
    · have e1 := sync_vk_noop_eq hchat hvk htok hpid hist heq
      have hstore1 : (sync_vk ctx store chatId).store = store := by rw [e1]
      rw [hstore1, e1]
      exact ⟨rfl, rfl, rfl, rfl, congrArg some heq.symm⟩
    · cases hfa : ctx.fault with
      | deleteFault =>
        rw [sync_vk_deleteFault_eq hchat hvk htok hpid hist heq hfa] at hsucc
        cases hsucc
      | insertFault =>
        rw [sync_vk_insertFault_eq hchat hvk htok hpid hist heq hfa] at hsucc
        cases hsucc
      | noFault =>
        have e1 := sync_vk_rebuild_eq hchat hvk htok hpid hist heq hfa
        have hcount : ((store.filter (fun r => ¬ r.chat_id == chatId)
            ++ rebuildRecords ctx chatId peerId items).filter
              (fun r => r.chat_id == chatId)).length
            = (items.filter msgRelevant).length := by
          rw [List.filter_append, filter_neg_filter_eq_nil, filter_rebuildRecords,
            List.nil_append]
          unfold rebuildRecords
          rw [length_flatMap_eq_sum]
          rw [sum_map_one _ _
            (fun m hm => hone m ((List.mem_insertionSort dateLe).1 hm))]
          exact (List.perm_insertionSort dateLe _).length_eq
        have e2 := @sync_vk_noop_eq ctx
          (store.filter (fun r => ¬ r.chat_id == chatId)
            ++ rebuildRecords ctx chatId peerId items)
          chatId chat peerId items hchat hvk htok hpid hist hcount.symm
        have hstore1 : (sync_vk ctx store chatId).store
            = store.filter (fun r => ¬ r.chat_id == chatId)
              ++ rebuildRecords ctx chatId peerId items := by rw [e1]
        rw [hstore1, e2]
        exact ⟨rfl, rfl, rfl, rfl, congrArg some hcount⟩

/-- Scenario: an in-sync VK chat (no remote items, empty store). -/
def ctxC3b : SyncCtx :=
  ⟨[{ id := 1, uuid := "7", messager := "vk" }], some "t", -100, failEnv,
   Except.ok [], DbFault.noFault, 1000⟩

/-- Witness for the amended idempotence theorem on the in-sync
scenario: the call is a reported no-op, and the second run performs no
writes. -/
theorem sync_vk_idempotence_amended_witness :
    sync_vk ctxC3b [] 1
      = ⟨{ success := true, message := "Messages are already synchronized",
           vk_count := some 0, db_count := some 0 }, [], 0, 0⟩
    ∧ (sync_vk ctxC3b (sync_vk ctxC3b [] 1).store 1).writesDeleted = 0
    ∧ (sync_vk ctxC3b (sync_vk ctxC3b [] 1).store 1).writesInserted = 0 := by
  have h := sync_vk_idempotence_amended ctxC3b [] 1
    { id := 1, uuid := "7", messager := "vk" } 7 []
    (by decide) rfl rfl (by decide) rfl
  have h2 := h.2 (by decide) (by decide)
  exact ⟨h.1 (by decide), h2.2.1, h2.2.2.1⟩

/-- Scenario: one remote item with missing/zero date and one with date
5, rebuilt at wall-clock time 1000. -/
def ctxC4 : SyncCtx :=
  ⟨[{ id := 1, uuid := "7", messager := "vk" }], some "t", -100, failEnv,
   Except.ok [{ from_id := 555, text := "a", date := 0 },
              { from_id := 555, text := "b", date := 5 }],
   DbFault.noFault, 1000⟩

/-- Claim C4 counterexample: rebuilt records are not always in
non-decreasing timestamp order.  An item with a missing (zero) date
sorts first but is stored with the current wall-clock time, which
exceeds the next item's timestamp. -/
theorem sync_vk_ordering_counterexample :
    (sync_vk ctxC4 [] 1).result.success = true
    ∧ ((sync_vk ctxC4 [] 1).store.filter (fun r => r.chat_id == 1)).map
        (fun r => r.created_at) = [1000, 5]
    ∧ ¬ List.Pairwise (fun a b => a ≤ b)
        (((sync_vk ctxC4 [] 1).store.filter (fun r => r.chat_id == 1)).map
          (fun r => r.created_at)) := by
  decide

/-- Claim C4 (amended): after a successful rebuild the conversation's
records are exactly the date-sorted filtered remote items expanded in
order, and when every filtered item has a nonzero unix date, their
timestamps are in non-decreasing order. -/
theorem sync_vk_ordering_amended (ctx : SyncCtx) (store : List Message)
    (chatId : Int) (chat : Chat) (peerId : Int) (items : List VkMessage)
    (hchat : getChat ctx.chats chatId = some chat)
    (hvk : chat.messager = "vk")
    (htok : strTruthy ctx.vkToken = true)
    (hpid : parseIntPy chat.uuid = some peerId)
    (hist : ctx.history = Except.ok items)
    (hne : (items.filter msgRelevant).length
      ≠ (store.filter (fun r => r.chat_id == chatId)).length)
    (hf : ctx.fault = DbFault.noFault)
    (hdates : ∀ m ∈ items.filter msgRelevant, m.date ≠ 0) :
    (sync_vk ctx store chatId).store.filter (fun r => r.chat_id == chatId)
      = rebuildRecords ctx chatId peerId items
    ∧ List.Pairwise (fun a b => a ≤ b)
        (((sync_vk ctx store chatId).store.filter (fun r => r.chat_id == chatId)).map
          (fun r => r.created_at)) := by
  have hfilter : (sync_vk ctx store chatId).store.filter (fun r => r.chat_id == chatId)
      = rebuildRecords ctx chatId peerId items := by
    rw [sync_vk_rebuild_eq hchat hvk htok hpid hist hne hf]
    simp only [List.filter_append, filter_neg_filter_eq_nil, filter_rebuildRecords,
      List.nil_append]
  refine ⟨hfilter, ?_⟩
  rw [hfilter]
  unfold rebuildRecords
  rw [List.pairwise_map]
  refine pairwise_le_flatMap (fun m => m.date) (fun r => r.created_at)
    (recordsForMessage ctx.media ctx.vkGroupId chatId peerId ctx.now)
    (List.insertionSort dateLe (items.filter msgRelevant)) ?_ ?_
  · exact List.sorted_insertionSort dateLe (items.filter msgRelevant)
  · intro m hm r hr
    show r.created_at = m.date
    rw [(recordsForMessage_fields hr).2.2.2]
    unfold createdAtFor
    rw [if_pos (hdates m ((List.mem_insertionSort dateLe).1 hm))]

/-- Scenario: two dated remote items, empty store, no fault. -/
def ctxC4b : SyncCtx :=
  ⟨[{ id := 1, uuid := "7", messager := "vk" }], some "t", -100, failEnv,
   Except.ok [{ from_id := -100, text := "a", date := 3 },
              { from_id := 555, text := "b", date := 5 }],
   DbFault.noFault, 1000⟩

/-- Witness for the amended ordering theorem on the dated scenario. -/
theorem sync_vk_ordering_amended_witness :
    (sync_vk ctxC4b [] 1).store.filter (fun r => r.chat_id == 1)
      = rebuildRecords ctxC4b 1 7
          [{ from_id := -100, text := "a", date := 3 },
           { from_id := 555, text := "b", date := 5 }]
    ∧ List.Pairwise (fun a b => a ≤ b)
        (((sync_vk ctxC4b [] 1).store.filter (fun r => r.chat_id == 1)).map
          (fun r => r.created_at)) :=
  sync_vk_ordering_amended ctxC4b [] 1
    { id := 1, uuid := "7", messager := "vk" } 7
    [{ from_id := -100, text := "a", date := 3 },
     { from_id := 555, text := "b", date := 5 }]
    (by decide) rfl rfl (by decide) rfl (by decide) rfl (by decide)

end Aggregator

